import Mathlib

/-!
Shallow embedding of `src/ticker.js` (class `AchievementsTicker`), a client-side
achievements ticker widget.  Pure data is translated to Lean structures; the
mutable widget object (`this`) becomes an explicit `TickerState` threaded through
the operations; the DOM track element becomes an explicit list of item values plus
a style record; the asynchronous fetch becomes a `FetchResult` argument describing
the outcome of the network interaction.  JavaScript `Array.prototype.sort` with the
comparator `(a, b) => a.priority - b.priority` is, per the ECMAScript spec, a
stable sort ascending by `priority`; a stable sort is a unique function of the
input, and it is modelled here by `List.insertionSort` over the non-strict
priority order, which is stable.
-/

namespace Ticker

/-- One achievement entry, the element shape of the `achievements` array in the
fetched JSON and of the hard-coded fallback list (fields per `src/ticker.js`). -/
structure AchievementRecord where
  id : String
  text : String
  category : String
  priority : Int
deriving Repr, DecidableEq

/-- Non-strict priority order used by the sort comparator
`(a, b) => a.priority - b.priority` in `loadAchievements` and `addAchievement`. -/
def recLe (a b : AchievementRecord) : Prop := a.priority ≤ b.priority

instance : DecidableRel recLe :=
  fun a b => inferInstanceAs (Decidable (a.priority ≤ b.priority))

instance : IsTotal AchievementRecord recLe :=
  ⟨fun a b => Int.le_total a.priority b.priority⟩

instance : IsTrans AchievementRecord recLe :=
  ⟨fun _ _ _ hab hbc => le_trans hab hbc⟩

/-- Stable ascending sort by `priority`: the semantics of
`this.achievementsData.sort((a, b) => a.priority - b.priority)`. -/
def sortByPriority (l : List AchievementRecord) : List AchievementRecord :=
  List.insertionSort recLe l

/-- A rendered `div.ticker-item` DOM element, reduced to the attributes and
content that `createTickerItems` sets on it. -/
structure TickerItem where
  className : String
  dataCategory : String
  dataId : String
  textContent : String
  title : String
deriving Repr, DecidableEq

/-- The body of the `map` callback in `createTickerItems`
(`src/ticker.js` lines 90-103). -/
def createTickerItem (a : AchievementRecord) : TickerItem where
  className := "ticker-item priority-" ++ toString a.priority
  dataCategory := a.category
  dataId := a.id
  textContent := a.text
  title := a.text

/-- `createTickerItems` (`src/ticker.js` lines 89-104): one element per record,
in collection order. -/
def createTickerItems (data : List AchievementRecord) : List TickerItem :=
  data.map createTickerItem

/-- `Node.cloneNode(deep)` on a ticker item: a deep clone copies attributes and
the text child, a shallow clone copies attributes only (no text child). -/
def cloneNode (item : TickerItem) (deep : Bool) : TickerItem :=
  if deep then item else { item with textContent := "" }

/-- The inline style properties of the track element that the widget touches. -/
structure TrackStyle where
  animationPlayState : String
  animationDuration : String
  opacity : String
deriving Repr, DecidableEq

/-- The `#ticker-track` DOM element: its child elements and its inline style. -/
structure TickerTrack where
  children : List TickerItem
  style : TrackStyle
deriving Repr, DecidableEq

/-- The mutable fields of the `AchievementsTicker` instance.  `tickerTrack` is
`none` when `document.getElementById` would return `null` (the render target is
absent from the document) and `some t` when the document holds the track `t`. -/
structure TickerState where
  achievementsData : List AchievementRecord
  tickerTrack : Option TickerTrack
  isLoaded : Bool
  animationSpeed : Int
deriving Repr, DecidableEq

/-- Constructor state (`src/ticker.js` lines 7-13): empty collection, no track
reference yet, not loaded, default 30 second cycle. -/
def initialState : TickerState where
  achievementsData := []
  tickerTrack := none
  isLoaded := false
  animationSpeed := 30

/-- Outcome of `await response.json()` and of reading `data.achievements`:
either the body is not parseable JSON, or it parses and the `achievements`
field is present (`some`) or absent/falsy (`none`). -/
inductive BodyResult where
  | unparseable
  | parsed (achievements : Option (List AchievementRecord))
deriving Repr, DecidableEq

/-- Outcome of `await fetch(...)`: either the request throws (network error) or
a response arrives with a status code and a body. -/
inductive FetchResult where
  | networkError
  | response (status : Nat) (body : BodyResult)
deriving Repr, DecidableEq

/-- `Response.ok`: true exactly when the status is in the range 200-299. -/
def responseOk (status : Nat) : Bool := 200 ≤ status && status ≤ 299

/-- The hard-coded fallback list assigned in the `catch` branch of
`loadAchievements` (`src/ticker.js` lines 46-65). -/
def fallbackAchievements : List AchievementRecord :=
  [ { id := "fallback-1"
    , text := "🏆 Microsoft Azure Developer Associate (AZ-204) - Scored 828/1000"
    , category := "certification"
    , priority := 1 }
  , { id := "fallback-2"
    , text := "🚀 Created ARIA - AI-Powered Interview Platform"
    , category := "project"
    , priority := 1 }
  , { id := "fallback-3"
    , text := "💼 1.4 Years Experience as Java Full Stack Developer"
    , category := "experience"
    , priority := 1 } ]

/-- `loadAchievements` (`src/ticker.js` lines 25-67) as a function of the fetch
outcome.  The `try` block throws on a network error, on `!response.ok`, and on
an unparseable body; every throw lands in the `catch` branch, which installs the
fallback list, so the method itself never propagates an error.  On success it
reads `data.achievements || []` and sorts it by priority. -/
def loadAchievements (r : FetchResult) : List AchievementRecord :=
  match r with
  | .networkError => fallbackAchievements
  | .response status body =>
    if !responseOk status then fallbackAchievements
    else
      match body with
      | .unparseable => fallbackAchievements
      | .parsed achievements => sortByPriority (achievements.getD [])

/-- Effect of `await this.loadAchievements()` on the instance: the collection
field is overwritten with the loaded list. -/
def loadAchievementsState (s : TickerState) (r : FetchResult) : TickerState :=
  { s with achievementsData := loadAchievements r }

/-- `setupTicker` (`src/ticker.js` lines 69-87).  `getElementById` is modelled by
the `tickerTrack` field: when the document has no track the method logs and
returns without touching anything; otherwise it clears the children
(`innerHTML = ""`), builds the items, and appends them twice, the second pass
appending `item.cloneNode(true)` for each item. -/
def setupTicker (s : TickerState) : TickerState :=
  match s.tickerTrack with
  | none => s
  | some t =>
    let tickerItems := createTickerItems s.achievementsData
    let children := tickerItems ++ tickerItems.map (fun item => cloneNode item true)
    { s with tickerTrack := some { t with children := children } }

/-- `pauseAnimation` (`src/ticker.js` lines 124-128). -/
def pauseAnimation (s : TickerState) : TickerState :=
  match s.tickerTrack with
  | none => s
  | some t =>
    { s with tickerTrack := some { t with style := { t.style with animationPlayState := "paused" } } }

/-- `resumeAnimation` (`src/ticker.js` lines 130-134). -/
def resumeAnimation (s : TickerState) : TickerState :=
  match s.tickerTrack with
  | none => s
  | some t =>
    { s with tickerTrack := some { t with style := { t.style with animationPlayState := "running" } } }

/-- `handleResponsiveSpeed` (`src/ticker.js` lines 136-149): `width` is
`window.innerWidth`; the local `speed` starts at `this.animationSpeed` and is
overwritten for small and medium viewports; the duration is written to the track
style only when the track exists. -/
def handleResponsiveSpeed (s : TickerState) (width : Int) : TickerState :=
  let speed : Int :=
    if width ≤ 480 then 15
    else if width ≤ 768 then 20
    else s.animationSpeed
  match s.tickerTrack with
  | none => s
  | some t =>
    { s with tickerTrack := some { t with style := { t.style with animationDuration := toString speed ++ "s" } } }

/-- `updateAchievements` (`src/ticker.js` lines 168-171): installs the given
list verbatim and re-renders. -/
def updateAchievements (s : TickerState) (newAchievements : List AchievementRecord) :
    TickerState :=
  setupTicker { s with achievementsData := newAchievements }

/-- `addAchievement` (`src/ticker.js` lines 174-178): push, re-sort by priority,
re-render. -/
def addAchievement (s : TickerState) (achievement : AchievementRecord) : TickerState :=
  setupTicker
    { s with achievementsData := sortByPriority (s.achievementsData ++ [achievement]) }

/-- `removeAchievement` (`src/ticker.js` lines 181-186): keep the records whose
id differs from the given id, re-render. -/
def removeAchievement (s : TickerState) (achievementId : String) : TickerState :=
  setupTicker
    { s with achievementsData :=
        s.achievementsData.filter (fun a => a.id != achievementId) }

/-- `filterByCategory` (`src/ticker.js` lines 189-195): for the sentinel "all"
the current collection is passed through unchanged, otherwise only the records
of the given category; either way the result is installed via
`updateAchievements`, overwriting the collection. -/
def filterByCategory (s : TickerState) (category : String) : TickerState :=
  let filteredData :=
    if category == "all" then s.achievementsData
    else s.achievementsData.filter (fun a => a.category == category)
  updateAchievements s filteredData

/-- Children of the track as seen in the document (empty when the track is
absent). -/
def trackChildren (s : TickerState) : List TickerItem :=
  match s.tickerTrack with
  | none => []
  | some t => t.children

/-- Animation duration currently set on the track style, when the track exists. -/
def trackDuration (s : TickerState) : Option String :=
  s.tickerTrack.map (fun t => t.style.animationDuration)

/-- Animation play state currently set on the track style, when the track exists. -/
def trackPlayState (s : TickerState) : Option String :=
  s.tickerTrack.map (fun t => t.style.animationPlayState)

/-- Opacity currently set on the track style, when the track exists. -/
def trackOpacity (s : TickerState) : Option String :=
  s.tickerTrack.map (fun t => t.style.opacity)

/-- A state whose track shows the current collection in non-decreasing priority
order: the children are exactly the rendered originals followed by their deep
clones, and the generating collection is non-decreasing by priority (so each of
the two back-to-back copies lists the elements in non-decreasing priority
order). -/
def renderInPriorityOrder (s : TickerState) : Prop :=
  trackChildren s =
      createTickerItems s.achievementsData
        ++ (createTickerItems s.achievementsData).map (fun item => cloneNode item true)
    ∧ s.achievementsData.Pairwise recLe

end Ticker

namespace Ticker

/-! Sample data used by witnesses and counterexamples. -/

/-- Sample track style. -/
def baseStyle : TrackStyle := { animationPlayState := "running", animationDuration := "30s", opacity := "0" }

/-- Sample empty track element. -/
def emptyTrack : TickerTrack := { children := [], style := baseStyle }

/-- Sample record with priority 2 (the record named "a" of the spec scenario). -/
def recA : AchievementRecord := { id := "a", text := "X", category := "c", priority := 2 }

/-- Sample record with priority 1 (the record named "b" of the spec scenario). -/
def recB : AchievementRecord := { id := "b", text := "Y", category := "c", priority := 1 }

/-- Sample widget state holding the sorted collection [recB, recA] and a track. -/
def sampleState : TickerState :=
  { achievementsData := [recB, recA], tickerTrack := some emptyTrack
  , isLoaded := true, animationSpeed := 30 }

/-! Helper lemmas about the embedded operations. -/

/-- Rendering never changes the collection field. -/
theorem setupTicker_achievementsData (s : TickerState) :
    (setupTicker s).achievementsData = s.achievementsData := by
  cases h : s.tickerTrack <;> simp [setupTicker, h]

/-- Rendering never changes whether the track exists. -/
theorem setupTicker_track_isSome (s : TickerState) :
    (setupTicker s).tickerTrack.isSome = s.tickerTrack.isSome := by
  cases h : s.tickerTrack <;> simp [setupTicker, h]

/-- When the track exists, rendering fills it with the items followed by their
deep clones. -/
theorem trackChildren_setupTicker (s : TickerState) (h : s.tickerTrack.isSome = true) :
    trackChildren (setupTicker s) =
      createTickerItems s.achievementsData
        ++ (createTickerItems s.achievementsData).map (fun item => cloneNode item true) := by
  cases ht : s.tickerTrack with
  | none => rw [ht] at h; simp at h
  | some t => simp [setupTicker, ht, trackChildren]

/-- C1: for every collection and every render where the track element exists, the
container afterwards holds exactly one element per record in collection order
followed by a deep clone of each of those elements in the same order, hence
2 × (number of records) elements in total. -/
theorem setupTicker_renders_two_copies (s : TickerState) (t : TickerTrack)
    (htrack : s.tickerTrack = some t) :
    trackChildren (setupTicker s) =
        createTickerItems s.achievementsData
          ++ (createTickerItems s.achievementsData).map (fun item => cloneNode item true)
      ∧ (trackChildren (setupTicker s)).length = 2 * s.achievementsData.length := by
  have hs : s.tickerTrack.isSome = true := by rw [htrack]; rfl
  have h1 := trackChildren_setupTicker s hs
  refine ⟨h1, ?_⟩
  rw [h1]
  simp [createTickerItems, List.length_append, List.length_map]
  omega

/-- Witness for C1 at the sample state. -/
theorem setupTicker_renders_two_copies_witness :
    trackChildren (setupTicker sampleState) =
        createTickerItems sampleState.achievementsData
          ++ (createTickerItems sampleState.achievementsData).map (fun item => cloneNode item true)
      ∧ (trackChildren (setupTicker sampleState)).length = 2 * sampleState.achievementsData.length :=
  setupTicker_renders_two_copies sampleState emptyTrack rfl

/-- C10: the interaction-controller operations never modify the achievements
collection or the rendered children; pause and resume leave the animation
duration and opacity untouched, and the responsive-speed handler leaves the play
state and opacity untouched. -/
theorem interaction_ops_preserve_collection_and_render (s : TickerState) (w : Int) :
    (pauseAnimation s).achievementsData = s.achievementsData
      ∧ trackChildren (pauseAnimation s) = trackChildren s
      ∧ trackDuration (pauseAnimation s) = trackDuration s
      ∧ trackOpacity (pauseAnimation s) = trackOpacity s
      ∧ (resumeAnimation s).achievementsData = s.achievementsData
      ∧ trackChildren (resumeAnimation s) = trackChildren s
      ∧ trackDuration (resumeAnimation s) = trackDuration s
      ∧ trackOpacity (resumeAnimation s) = trackOpacity s
      ∧ (handleResponsiveSpeed s w).achievementsData = s.achievementsData
      ∧ trackChildren (handleResponsiveSpeed s w) = trackChildren s
      ∧ trackPlayState (handleResponsiveSpeed s w) = trackPlayState s
      ∧ trackOpacity (handleResponsiveSpeed s w) = trackOpacity s := by
  cases h : s.tickerTrack <;>
    simp [pauseAnimation, resumeAnimation, handleResponsiveSpeed,
      trackChildren, trackDuration, trackPlayState, trackOpacity, h]

/-- C8: with the constructor value 30 for the default cycle, the responsive rule
is a total function of the viewport width: at most 480 gives "15s", between 481
and 768 gives "20s", above 768 gives "30s"; in particular 400, 600 and 1024 give
"15s", "20s" and "30s". -/
theorem responsive_speed_total_rule (s : TickerState) (t : TickerTrack) (w : Int)
    (htrack : s.tickerTrack = some t) (hspeed : s.animationSpeed = 30) :
    trackDuration (handleResponsiveSpeed s w)
        = some (if w ≤ 480 then "15s" else if w ≤ 768 then "20s" else "30s")
      ∧ trackDuration (handleResponsiveSpeed s 400) = some "15s"
      ∧ trackDuration (handleResponsiveSpeed s 600) = some "20s"
      ∧ trackDuration (handleResponsiveSpeed s 1024) = some "30s" := by
  have hg : ∀ v : Int, trackDuration (handleResponsiveSpeed s v)
      = some (if v ≤ 480 then "15s" else if v ≤ 768 then "20s" else "30s") := by
    intro v
    simp only [handleResponsiveSpeed, htrack, trackDuration, hspeed]
    split_ifs <;> rfl
  refine ⟨hg w, ?_, ?_, ?_⟩ <;> rw [hg] <;> rfl

/-- Witness for C8 at the sample state and width 1024. -/
theorem responsive_speed_total_rule_witness :
    trackDuration (handleResponsiveSpeed sampleState 1024)
        = some (if (1024 : Int) ≤ 480 then "15s" else if (1024 : Int) ≤ 768 then "20s" else "30s")
      ∧ trackDuration (handleResponsiveSpeed sampleState 400) = some "15s"
      ∧ trackDuration (handleResponsiveSpeed sampleState 600) = some "20s"
      ∧ trackDuration (handleResponsiveSpeed sampleState 1024) = some "30s" :=
  responsive_speed_total_rule sampleState emptyTrack 1024 rfl rfl

end Ticker

namespace Ticker

/-- C2 counterexample: installing the unsorted collection [recA, recB]
(priorities 2 then 1) verbatim through updateAchievements renders the two copies
in the verbatim order, which is not non-decreasing by priority, so the claimed
invariant fails for collections installed without re-sorting. -/
theorem update_of_unsorted_breaks_priority_order :
    ¬ renderInPriorityOrder (updateAchievements sampleState [recA, recB]) := by
  unfold renderInPriorityOrder
  decide

/-- C2 (amended): for every collection that is non-decreasing by priority,
rendering it (updateAchievements installs it verbatim) shows the elements of
each of the two back-to-back copies in non-decreasing priority order. -/
theorem update_of_sorted_renders_in_priority_order (s : TickerState) (t : TickerTrack)
    (l : List AchievementRecord) (htrack : s.tickerTrack = some t)
    (hsorted : l.Pairwise recLe) :
    renderInPriorityOrder (updateAchievements s l) := by
  have hs : ({ s with achievementsData := l } : TickerState).tickerTrack.isSome = true := by
    simp [htrack]
  constructor
  · rw [updateAchievements, setupTicker_achievementsData]
    exact trackChildren_setupTicker _ hs
  · rw [updateAchievements, setupTicker_achievementsData]
    exact hsorted

/-- Witness for the amended C2 at the sample state with the sorted collection
[recB, recA] (priorities 1 then 2). -/
theorem update_of_sorted_renders_in_priority_order_witness :
    renderInPriorityOrder (updateAchievements sampleState [recB, recA]) :=
  update_of_sorted_renders_in_priority_order sampleState emptyTrack [recB, recA] rfl (by decide)

/-- For a category other than the sentinel, filterByCategory overwrites the
collection with the matching records. -/
theorem filterByCategory_eq (s : TickerState) (c : String) (h : (c == "all") = false) :
    filterByCategory s c
      = updateAchievements s (s.achievementsData.filter (fun a => a.category == c)) := by
  simp [filterByCategory, h]

/-- For the sentinel "all", filterByCategory re-installs the current collection. -/
theorem filterByCategory_all (s : TickerState) :
    filterByCategory s "all" = updateAchievements s s.achievementsData := by
  simp [filterByCategory]

/-- C3: for every collection and category c distinct from "all", filtering by c
and then by "all" renders only the records whose category equals c (the
destructively filtered collection), not the collection held before the first
filter. -/
theorem filter_then_all_keeps_only_filtered (s : TickerState) (t : TickerTrack) (c : String)
    (htrack : s.tickerTrack = some t) (hc : c ≠ "all") :
    (filterByCategory (filterByCategory s c) "all").achievementsData
        = s.achievementsData.filter (fun a => a.category == c)
      ∧ trackChildren (filterByCategory (filterByCategory s c) "all")
        = createTickerItems (s.achievementsData.filter (fun a => a.category == c))
          ++ (createTickerItems (s.achievementsData.filter (fun a => a.category == c))).map
              (fun item => cloneNode item true) := by
  have hcb : (c == "all") = false := by
    cases hx : c == "all" with
    | false => rfl
    | true => exact absurd (by simpa using hx) hc
  have h1 : (filterByCategory s c).achievementsData
      = s.achievementsData.filter (fun a => a.category == c) := by
    rw [filterByCategory_eq s c hcb, updateAchievements, setupTicker_achievementsData]
  have h1t : (filterByCategory s c).tickerTrack.isSome = true := by
    rw [filterByCategory_eq s c hcb, updateAchievements]
    rw [setupTicker_track_isSome]
    simp [htrack]
  have h2 : (filterByCategory (filterByCategory s c) "all").achievementsData
      = (filterByCategory s c).achievementsData := by
    rw [filterByCategory_all, updateAchievements, setupTicker_achievementsData]
  constructor
  · rw [h2, h1]
  · rw [filterByCategory_all, updateAchievements]
    have hs2 : ({ filterByCategory s c with
        achievementsData := (filterByCategory s c).achievementsData } : TickerState).tickerTrack.isSome = true := h1t
    rw [trackChildren_setupTicker _ hs2]
    simp [h1]

/-- Witness for C3 at the sample state with category "c" (both sample records
match). -/
theorem filter_then_all_keeps_only_filtered_witness :
    (filterByCategory (filterByCategory sampleState "c") "all").achievementsData
        = sampleState.achievementsData.filter (fun a => a.category == "c")
      ∧ trackChildren (filterByCategory (filterByCategory sampleState "c") "all")
        = createTickerItems (sampleState.achievementsData.filter (fun a => a.category == "c"))
          ++ (createTickerItems (sampleState.achievementsData.filter (fun a => a.category == "c"))).map
              (fun item => cloneNode item true) :=
  filter_then_all_keeps_only_filtered sampleState emptyTrack "c" rfl (by decide)

/-- C9: filtering by a category distinct from "all" that matches no current
record empties the collection, and a subsequent filterByCategory "all" still
renders zero records: the emptying is irreversible through the widget API. -/
theorem filter_unmatched_category_irreversibly_empty (s : TickerState) (t : TickerTrack)
    (c : String) (htrack : s.tickerTrack = some t) (hc : c ≠ "all")
    (hnone : ∀ a ∈ s.achievementsData, a.category ≠ c) :
    (filterByCategory s c).achievementsData = []
      ∧ (filterByCategory (filterByCategory s c) "all").achievementsData = []
      ∧ trackChildren (filterByCategory (filterByCategory s c) "all") = [] := by
  have hcb : (c == "all") = false := by
    cases hx : c == "all" with
    | false => rfl
    | true => exact absurd (by simpa using hx) hc
  have hfilter : s.achievementsData.filter (fun a => a.category == c) = [] := by
    rw [List.filter_eq_nil_iff]
    intro a ha
    simpa using hnone a ha
  have h1 : (filterByCategory s c).achievementsData = [] := by
    rw [filterByCategory_eq s c hcb, updateAchievements, setupTicker_achievementsData]
    exact hfilter
  have h1t : (filterByCategory s c).tickerTrack.isSome = true := by
    rw [filterByCategory_eq s c hcb, updateAchievements, setupTicker_track_isSome]
    simp [htrack]
  refine ⟨h1, ?_, ?_⟩
  · rw [filterByCategory_all, updateAchievements, setupTicker_achievementsData]
    exact h1
  · rw [filterByCategory_all, updateAchievements]
    rw [trackChildren_setupTicker _ h1t]
    simp [h1, createTickerItems]

/-- Witness for C9 at the sample state with the unmatched category "nosuch". -/
theorem filter_unmatched_category_irreversibly_empty_witness :
    (filterByCategory sampleState "nosuch").achievementsData = []
      ∧ (filterByCategory (filterByCategory sampleState "nosuch") "all").achievementsData = []
      ∧ trackChildren (filterByCategory (filterByCategory sampleState "nosuch") "all") = [] :=
  filter_unmatched_category_irreversibly_empty sampleState emptyTrack "nosuch" rfl
    (by decide) (by decide)

end Ticker

namespace Ticker

/-- Stability of the loader sort: records of any fixed priority keep their
original relative order (the sorted list restricted to one priority equals the
input restricted to that priority). -/
theorem sortByPriority_filter_fixed_priority (l : List AchievementRecord) (p : Int) :
    (sortByPriority l).filter (fun a => a.priority == p)
      = l.filter (fun a => a.priority == p) := by
  have hpair : (l.filter (fun a => a.priority == p)).Pairwise recLe := by
    apply List.pairwise_of_forall_mem_list
    intro a ha b hb
    have hap := List.of_mem_filter ha
    have hbp := List.of_mem_filter hb
    simp only [beq_iff_eq] at hap hbp
    simp [recLe, hap, hbp]
  have hsub : List.Sublist (l.filter (fun a => a.priority == p)) (sortByPriority l) :=
    List.sublist_insertionSort hpair (List.filter_sublist l)
  have hsub2 := hsub.filter (fun a => a.priority == p)
  have heq : (l.filter (fun a => a.priority == p)).filter (fun a => a.priority == p)
      = l.filter (fun a => a.priority == p) := by
    simp [List.filter_filter]
  rw [heq] at hsub2
  have hperm : List.Perm ((sortByPriority l).filter (fun a => a.priority == p))
      (l.filter (fun a => a.priority == p)) :=
    (List.perm_insertionSort recLe l).filter _
  exact (hsub2.eq_of_length hperm.length_eq.symm).symm

/-- C6: on a successful fetch the loader returns the stable ascending sort of
the payload by priority only: the result is non-decreasing by priority, keeps
equal-priority records in original relative order, and is a permutation of the
payload; the concrete two-record payload of the spec renders [b, a, b, a] by
text. -/
theorem load_sorts_stably_by_priority (l : List AchievementRecord) (status : Nat) (p : Int)
    (h : responseOk status = true) :
    loadAchievements (.response status (.parsed (some l))) = sortByPriority l
      ∧ (sortByPriority l).Pairwise recLe
      ∧ (sortByPriority l).filter (fun a => a.priority == p)
          = l.filter (fun a => a.priority == p)
      ∧ List.Perm (sortByPriority l) l
      ∧ (trackChildren (updateAchievements sampleState
            (loadAchievements (.response 200 (.parsed (some [recA, recB])))))).map
          (fun item => item.textContent) = ["Y", "X", "Y", "X"] := by
  refine ⟨?_, List.sorted_insertionSort recLe l, sortByPriority_filter_fixed_priority l p,
    List.perm_insertionSort recLe l, by decide⟩
  simp [loadAchievements, h]

/-- Witness for C6 at the payload of the concrete spec scenario, status 200,
priority 1. -/
theorem load_sorts_stably_by_priority_witness :
    loadAchievements (.response 200 (.parsed (some [recA, recB]))) = sortByPriority [recA, recB]
      ∧ (sortByPriority [recA, recB]).Pairwise recLe
      ∧ (sortByPriority [recA, recB]).filter (fun a => a.priority == (1 : Int))
          = [recA, recB].filter (fun a => a.priority == (1 : Int))
      ∧ List.Perm (sortByPriority [recA, recB]) [recA, recB]
      ∧ (trackChildren (updateAchievements sampleState
            (loadAchievements (.response 200 (.parsed (some [recA, recB])))))).map
          (fun item => item.textContent) = ["Y", "X", "Y", "X"] :=
  load_sorts_stably_by_priority [recA, recB] 200 1 (by decide)

/-- C4 counterexample: a successful response whose parsed body has no
achievements field makes the loader return the empty list, which is not the
fallback sequence of length 3. -/
theorem load_missing_field_not_fallback_cex :
    loadAchievements (.response 200 (.parsed none)) = []
      ∧ loadAchievements (.response 200 (.parsed none)) ≠ fallbackAchievements
      ∧ 3 ≤ fallbackAchievements.length := by
  decide

/-- C4 (amended): if the fetch succeeds with a parseable body in which the
achievements field is absent, the loader returns the empty sequence (the
fallback is reserved for thrown failures). -/
theorem load_missing_field_returns_empty (status : Nat) (h : responseOk status = true) :
    loadAchievements (.response status (.parsed none)) = [] := by
  simp [loadAchievements, h, sortByPriority, List.insertionSort]

/-- Witness for the amended C4 at status 200. -/
theorem load_missing_field_returns_empty_witness :
    loadAchievements (.response 200 (.parsed none)) = [] :=
  load_missing_field_returns_empty 200 (by decide)

/-- A fetch outcome the try block of the loader turns into a throw: a network
error, a non-2xx status, or an unparseable body. -/
def isFetchFailure (r : FetchResult) : Prop :=
  match r with
  | .networkError => True
  | .response status body => responseOk status = false ∨ body = .unparseable

/-- C5: every failing fetch (thrown network error, non-2xx status such as 500,
or unparseable body) is caught and leaves the collection equal to the fixed
fallback sequence of at least 3 records; the loader returns normally. -/
theorem load_failure_returns_fallback (s : TickerState) (r : FetchResult)
    (h : isFetchFailure r) :
    loadAchievements r = fallbackAchievements
      ∧ (loadAchievementsState s r).achievementsData = fallbackAchievements
      ∧ 3 ≤ fallbackAchievements.length := by
  have hmain : loadAchievements r = fallbackAchievements := by
    cases r with
    | networkError => rfl
    | response status body =>
      unfold isFetchFailure at h
      rcases h with h | h
      · simp [loadAchievements, h]
      · subst h
        cases hok : responseOk status <;> simp [loadAchievements, hok]
  exact ⟨hmain, by simp [loadAchievementsState, hmain], by decide⟩

/-- Witness for C5 at a 500 status with a well-formed body. -/
theorem load_failure_returns_fallback_witness :
    loadAchievements (.response 500 (.parsed (some []))) = fallbackAchievements
      ∧ (loadAchievementsState sampleState (.response 500 (.parsed (some [])))).achievementsData
          = fallbackAchievements
      ∧ 3 ≤ fallbackAchievements.length :=
  load_failure_returns_fallback sampleState (.response 500 (.parsed (some [])))
    (by unfold isFetchFailure; decide)

end Ticker

namespace Ticker

/-- Sample record with id "x", priority 1. -/
def recX : AchievementRecord := { id := "x", text := "T", category := "c", priority := 1 }

/-- Sample record sharing the id "x" with recX but otherwise different. -/
def recX2 : AchievementRecord := { id := "x", text := "U", category := "c", priority := 2 }

/-- Sample record with the fresh id "z". -/
def recZ : AchievementRecord := { id := "z", text := "Z", category := "c", priority := 1 }

/-- Sample rendered state holding only recX. -/
def dupState : TickerState :=
  setupTicker
    { achievementsData := [recX], tickerTrack := some emptyTrack
    , isLoaded := true, animationSpeed := 30 }

/-- The track of the sample state after a render. -/
def renderedTrack : TickerTrack :=
  { children := createTickerItems [recB, recA]
      ++ (createTickerItems [recB, recA]).map (fun item => cloneNode item true)
  , style := baseStyle }

/-- The sample state after a render. -/
def renderedState : TickerState :=
  { achievementsData := [recB, recA], tickerTrack := some renderedTrack
  , isLoaded := true, animationSpeed := 30 }

/-- C7 counterexample: when the collection already holds a record with the same
id, adding recX2 (id "x") and then removing id "x" removes the pre-existing
record too, leaving an empty render that is not a permutation of the render
before the add. -/
theorem add_then_remove_duplicate_id_cex :
    trackChildren (removeAchievement (addAchievement dupState recX2) recX2.id) = []
      ∧ trackChildren dupState ≠ []
      ∧ ¬ List.Perm (trackChildren (removeAchievement (addAchievement dupState recX2) recX2.id))
          (trackChildren dupState) := by
  decide

/-- C7 (amended): if no record of the current collection carries the id of the
added record, then add followed by remove of that id restores the rendered set
up to permutation (contents, not order or identity), and likewise the
collection. -/
theorem add_then_remove_fresh_id_restores_render (s : TickerState) (t : TickerTrack)
    (r : AchievementRecord) (htrack : s.tickerTrack = some t)
    (hfresh : ∀ a ∈ s.achievementsData, a.id ≠ r.id)
    (hrendered : trackChildren s
      = createTickerItems s.achievementsData
        ++ (createTickerItems s.achievementsData).map (fun item => cloneNode item true)) :
    List.Perm (trackChildren (removeAchievement (addAchievement s r) r.id)) (trackChildren s)
      ∧ List.Perm ((removeAchievement (addAchievement s r) r.id).achievementsData)
          s.achievementsData := by
  have hdataadd : (addAchievement s r).achievementsData
      = sortByPriority (s.achievementsData ++ [r]) := by
    rw [addAchievement, setupTicker_achievementsData]
  have htrackadd : (addAchievement s r).tickerTrack.isSome = true := by
    rw [addAchievement, setupTicker_track_isSome]
    simp [htrack]
  have hdatarem : (removeAchievement (addAchievement s r) r.id).achievementsData
      = (sortByPriority (s.achievementsData ++ [r])).filter (fun a => a.id != r.id) := by
    rw [removeAchievement, setupTicker_achievementsData]
    simp [hdataadd]
  have hpermdata : List.Perm
      ((sortByPriority (s.achievementsData ++ [r])).filter (fun a => a.id != r.id))
      s.achievementsData := by
    have h1 : List.Perm (sortByPriority (s.achievementsData ++ [r]))
        (s.achievementsData ++ [r]) := List.perm_insertionSort recLe _
    have h2 := h1.filter (fun a => a.id != r.id)
    have h3 : (s.achievementsData ++ [r]).filter (fun a => a.id != r.id)
        = s.achievementsData := by
      rw [List.filter_append]
      have hself : s.achievementsData.filter (fun a => a.id != r.id) = s.achievementsData :=
        List.filter_eq_self.mpr (by intro a ha; simpa using hfresh a ha)
      have hrr : [r].filter (fun a => a.id != r.id) = [] := by simp
      rw [hself, hrr, List.append_nil]
    rw [h3] at h2
    exact h2
  have hchild : trackChildren (removeAchievement (addAchievement s r) r.id)
      = createTickerItems
            ((sortByPriority (s.achievementsData ++ [r])).filter (fun a => a.id != r.id))
          ++ (createTickerItems
                ((sortByPriority (s.achievementsData ++ [r])).filter (fun a => a.id != r.id))).map
              (fun item => cloneNode item true) := by
    rw [removeAchievement]
    rw [trackChildren_setupTicker]
    · simp [hdataadd]
    · simpa using htrackadd
  constructor
  · rw [hchild, hrendered]
    have hpi : List.Perm
        (createTickerItems
          ((sortByPriority (s.achievementsData ++ [r])).filter (fun a => a.id != r.id)))
        (createTickerItems s.achievementsData) := hpermdata.map createTickerItem
    exact hpi.append (hpi.map (fun item => cloneNode item true))
  · rw [hdatarem]
    exact hpermdata

/-- Witness for the amended C7: adding the fresh-id record recZ to the rendered
sample state and removing its id restores the rendered contents. -/
theorem add_then_remove_fresh_id_restores_render_witness :
    List.Perm (trackChildren (removeAchievement (addAchievement renderedState recZ) recZ.id))
        (trackChildren renderedState)
      ∧ List.Perm ((removeAchievement (addAchievement renderedState recZ) recZ.id).achievementsData)
          renderedState.achievementsData :=
  add_then_remove_fresh_id_restores_render renderedState renderedTrack recZ rfl
    (by decide) (by decide)

end Ticker
